import Mathlib

set_option maxHeartbeats 1000000

/-!
Shallow embedding of the kafstore repository's certificate-chain handling:
the PEM chain parser, the certificate metadata extractor, the store-assembly
pipeline `generate_stores`, and the connection probes, as implemented in
src/app.py and src/frontend/backend/main.py.  External effects (subprocess
invocations, file reads, the x509 decoder of the `cryptography` library) are
abstracted as explicit environments; everything else is transcribed from the
Python source.
-/

/-! ## Python string primitives used by the source -/

/-- Python substring test: `pat in line`, on character lists. -/
def isSubstrC (pat : List Char) : List Char → Bool
  | [] => pat.isEmpty
  | c :: rest => pat.isPrefixOf (c :: rest) || isSubstrC pat rest

/-- Python `pat in line` on strings. -/
def pyContains (line pat : String) : Bool := isSubstrC pat.toList line.toList

/-- Python `s.split(sep)` for a one-character separator, on character lists.
Never returns `[]`; `[] ↦ [[]]` matches Python's `''.split(c) == ['']`. -/
def pySplitCharC (c : Char) : List Char → List (List Char)
  | [] => [[]]
  | a :: rest =>
    let r := pySplitCharC c rest
    if a = c then [] :: r else (a :: r.headD []) :: r.tail

/-- Python `content.split('\n')`. -/
def pySplitLines (s : String) : List String := (pySplitCharC '\n' s.toList).map String.mk

/-- Python `'\n'.join(lines)`. -/
def pyJoinLines : List String → String
  | [] => ""
  | [l] => l
  | l :: l2 :: rest => l ++ "\n" ++ pyJoinLines (l2 :: rest)

/-- Python `s[:n]`. -/
def pyTake (n : Nat) (s : String) : String := String.mk (s.toList.take n)

/-- Characters stripped by Python's `str.strip()` (ASCII whitespace). -/
def isPySpace (c : Char) : Bool :=
  c = ' ' || c = '\t' || c = '\n' || c = '\r' || c = '\x0b' || c = '\x0c'

/-- Python `s.strip()`. -/
def pyStrip (s : String) : String :=
  String.mk (((s.toList.dropWhile isPySpace).reverse.dropWhile isPySpace).reverse)

/-- Python `s.split(':')`. -/
def pySplitColon (s : String) : List String := (pySplitCharC ':' s.toList).map String.mk

/-! ## PEM chain parser (main.py `parse_cert_chain`, app.py inline extraction) -/

def BEGIN_MARKER : String := "-----BEGIN CERTIFICATE-----"
def END_MARKER : String := "-----END CERTIFICATE-----"

/-- State of the line-scanning loop shared by `parse_cert_chain`
(main.py 91-108), `extract_root_cert`, and the extraction inlined in
app.py's `generate_stores` (lines 84-98). -/
structure ParseState where
  certs : List String
  current_cert : List String
  in_cert : Bool
deriving DecidableEq

/-- One loop iteration of `parse_cert_chain` (main.py lines 97-106).
Note that the `END` branch fires whether or not `in_cert` holds, and that
the accumulator is not cleared after a block is emitted. -/
def parseStep (st : ParseState) (line : String) : ParseState :=
  if pyContains line BEGIN_MARKER then
    { st with current_cert := [line], in_cert := true }
  else if pyContains line END_MARKER then
    { certs := st.certs ++ [pyJoinLines (st.current_cert ++ [line])],
      current_cert := st.current_cert ++ [line],
      in_cert := false }
  else if st.in_cert then
    { st with current_cert := st.current_cert ++ [line] }
  else st

/-- `parse_cert_chain` (main.py lines 91-108). -/
def parse_cert_chain (content : String) : List String :=
  ((pySplitLines content).foldl parseStep ⟨[], [], false⟩).certs

/-- One loop iteration of the certificate extraction inlined in app.py's
`generate_stores` (lines 88-98); unlike `parseStep` it resets the
accumulator after emitting a block (same emitted list of blocks). -/
def extractStep (st : ParseState) (line : String) : ParseState :=
  if pyContains line BEGIN_MARKER then
    { st with current_cert := [line], in_cert := true }
  else if pyContains line END_MARKER then
    { certs := st.certs ++ [pyJoinLines (st.current_cert ++ [line])],
      current_cert := [],
      in_cert := false }
  else if st.in_cert then
    { st with current_cert := st.current_cert ++ [line] }
  else st

/-- The certificate extraction inlined in app.py's `generate_stores`
(lines 84-98). -/
def extract_certs (content : String) : List String :=
  ((pySplitLines content).foldl extractStep ⟨[], [], false⟩).certs

/-! ## Well-formed chain inputs (for stating the parser claims) -/

/-- A line containing neither PEM marker. -/
def noMarker (l : String) : Prop :=
  pyContains l BEGIN_MARKER = false ∧ pyContains l END_MARKER = false

instance (l : String) : Decidable (noMarker l) :=
  inferInstanceAs (Decidable (_ ∧ _))

/-- One item of a chain input: a junk line outside every block, or one
well-formed PEM block given as its begin line, body lines and end line. -/
inductive ChainItem where
  | junk (line : String)
  | block (beginLine : String) (body : List String) (endLine : String)

def ChainItem.lines : ChainItem → List String
  | .junk l => [l]
  | .block b body e => b :: (body ++ [e])

/-- The input lines denoted by a list of chain items. -/
def chainLines (items : List ChainItem) : List String :=
  (items.map ChainItem.lines).flatten

/-- Well-formedness: junk lines carry no marker; a block's begin line carries
the begin marker, its body lines carry no marker, and its end line carries the
end marker (and not the begin marker). -/
def ChainItem.wf : ChainItem → Prop
  | .junk l => noMarker l
  | .block b body e =>
      pyContains b BEGIN_MARKER = true ∧ (∀ l ∈ body, noMarker l) ∧
      pyContains e BEGIN_MARKER = false ∧ pyContains e END_MARKER = true

instance : DecidablePred ChainItem.wf := fun it =>
  match it with
  | .junk l => inferInstanceAs (Decidable (noMarker l))
  | .block _ _ _ => inferInstanceAs (Decidable (_ ∧ _))

/-- The text of a block item: the input slice between and including its
markers, joined exactly as the source joins it. -/
def ChainItem.render : ChainItem → Option String
  | .junk _ => none
  | .block b body e => some (pyJoinLines (b :: (body ++ [e])))

/-- The blocks of a chain input, in source order. -/
def chainBlocks (items : List ChainItem) : List String :=
  items.filterMap ChainItem.render

/-! ## Basic facts about the Python string primitives -/

theorem string_toList_append (a b : String) :
    (a ++ b).toList = a.toList ++ b.toList := by
  cases a; cases b; rfl

theorem string_mk_toList (s : String) : String.mk s.toList = s := rfl

theorem pySplitCharC_ne_nil (c : Char) (l : List Char) : pySplitCharC c l ≠ [] := by
  cases l with
  | nil => simp [pySplitCharC]
  | cons a rest =>
    simp only [pySplitCharC]
    split <;> simp

theorem pySplitCharC_cons_ne (c a : Char) (l : List Char) (h : ¬ a = c) :
    pySplitCharC c (a :: l) =
      (a :: (pySplitCharC c l).headD []) :: (pySplitCharC c l).tail := by
  simp [pySplitCharC, if_neg h]

theorem pySplitCharC_cons_self (c : Char) (l : List Char) :
    pySplitCharC c (c :: l) = [] :: pySplitCharC c l := by
  simp [pySplitCharC]

theorem pySplitCharC_no_sep (c : Char) (l : List Char) (h : c ∉ l) :
    pySplitCharC c l = [l] := by
  induction l with
  | nil => rfl
  | cons a rest ih =>
    have hac : ¬ a = c := fun hh => h (hh ▸ List.mem_cons_self a rest)
    have hrest : c ∉ rest := fun hh => h (List.mem_cons_of_mem a hh)
    rw [pySplitCharC_cons_ne c a rest hac, ih hrest]
    rfl

theorem pySplitCharC_append (c : Char) (l rest : List Char) (h : c ∉ l) :
    pySplitCharC c (l ++ c :: rest) = l :: pySplitCharC c rest := by
  induction l with
  | nil => simp [pySplitCharC]
  | cons a t ih =>
    have hac : ¬ a = c := fun hh => h (hh ▸ List.mem_cons_self a t)
    have ht : c ∉ t := fun hh => h (List.mem_cons_of_mem a hh)
    rw [List.cons_append, pySplitCharC_cons_ne c a _ hac, ih ht]
    rfl

theorem toList_pyJoinLines_cons (l l2 : String) (rest : List String) :
    (pyJoinLines (l :: l2 :: rest)).toList =
      l.toList ++ '\n' :: (pyJoinLines (l2 :: rest)).toList := by
  show (l ++ "\n" ++ pyJoinLines (l2 :: rest)).toList = _
  rw [string_toList_append, string_toList_append, List.append_assoc]
  rfl

/-- Splitting the join of newline-free lines gives the lines back
(the Python `split('\n')` / `'\n'.join` round trip). -/
theorem pySplitLines_pyJoinLines (ls : List String) (hne : ls ≠ [])
    (h : ∀ l ∈ ls, '\n' ∉ l.toList) : pySplitLines (pyJoinLines ls) = ls := by
  induction ls with
  | nil => exact absurd rfl hne
  | cons l rest ih =>
    cases rest with
    | nil =>
      have hl := h l (List.mem_cons_self l [])
      simp only [pySplitLines, pyJoinLines, pySplitCharC_no_sep '\n' l.toList hl,
        List.map_cons, List.map_nil, string_mk_toList]
    | cons l2 rest2 =>
      have hl := h l (List.mem_cons_self l _)
      have hrest : ∀ x ∈ l2 :: rest2, '\n' ∉ x.toList :=
        fun x hx => h x (List.mem_cons_of_mem l hx)
      have ihr := ih (by simp) hrest
      simp only [pySplitLines] at ihr ⊢
      rw [toList_pyJoinLines_cons, pySplitCharC_append '\n' l.toList _ hl]
      simp only [List.map_cons, string_mk_toList, List.cons.injEq, true_and]
      exact ihr

/-! ## Parser lemmas -/

theorem chainLines_cons (x : ChainItem) (rest : List ChainItem) :
    chainLines (x :: rest) = x.lines ++ chainLines rest := by
  simp [chainLines]

theorem chainBlocks_cons_junk (l : String) (rest : List ChainItem) :
    chainBlocks (.junk l :: rest) = chainBlocks rest := by
  simp [chainBlocks, ChainItem.render]

theorem chainBlocks_cons_block (b : String) (body : List String) (e : String)
    (rest : List ChainItem) :
    chainBlocks (.block b body e :: rest) =
      pyJoinLines (b :: (body ++ [e])) :: chainBlocks rest := by
  simp [chainBlocks, ChainItem.render]

theorem chainLines_eq_nil (items : List ChainItem) (h : chainLines items = []) :
    items = [] := by
  cases items with
  | nil => rfl
  | cons it rest =>
    exfalso
    cases it <;> simp [chainLines, ChainItem.lines] at h

/-- A line with no marker leaves the scanner unchanged when outside a block. -/
theorem parseStep_outside (st : ParseState) (l : String)
    (h1 : pyContains l BEGIN_MARKER = false) (h2 : pyContains l END_MARKER = false)
    (h3 : st.in_cert = false) : parseStep st l = st := by
  simp [parseStep, h1, h2, h3]

/-- Scanning the body of a block appends its lines to the accumulator. -/
theorem foldl_parseStep_body (body : List String) (cs : List String) :
    ∀ cur, (∀ l ∈ body, noMarker l) →
      body.foldl parseStep ⟨cs, cur, true⟩ = ⟨cs, cur ++ body, true⟩ := by
  induction body with
  | nil => intro cur _; simp
  | cons l rest ih =>
    intro cur h
    obtain ⟨h1, h2⟩ := h l (List.mem_cons_self l rest)
    have hstep : parseStep ⟨cs, cur, true⟩ l = ⟨cs, cur ++ [l], true⟩ := by
      simp [parseStep, h1, h2]
    simp only [List.foldl_cons, hstep,
      ih (cur ++ [l]) (fun x hx => h x (List.mem_cons_of_mem l hx))]
    simp

/-- Scanning a well-formed chain from outside a block emits exactly its
blocks, appended to the certificates already collected. -/
theorem foldl_parseStep_items (items : List ChainItem) :
    ∀ (cs cur : List String), (∀ it ∈ items, it.wf) →
      ∃ cur', (chainLines items).foldl parseStep ⟨cs, cur, false⟩ =
        ⟨cs ++ chainBlocks items, cur', false⟩ := by
  induction items with
  | nil =>
    intro cs cur _
    exact ⟨cur, by simp [chainLines, chainBlocks]⟩
  | cons it rest ih =>
    intro cs cur h
    have hit := h it (List.mem_cons_self it rest)
    have hrest : ∀ x ∈ rest, x.wf := fun x hx => h x (List.mem_cons_of_mem it hx)
    rw [chainLines_cons, List.foldl_append]
    cases it with
    | junk l =>
      obtain ⟨h1, h2⟩ := hit
      have hstep : ChainItem.lines (.junk l) = [l] := rfl
      rw [hstep]
      simp only [List.foldl_cons, List.foldl_nil,
        parseStep_outside ⟨cs, cur, false⟩ l h1 h2 rfl]
      obtain ⟨cur', hc⟩ := ih cs cur hrest
      exact ⟨cur', by rw [hc, chainBlocks_cons_junk]⟩
    | block b body e =>
      obtain ⟨hb, hbody, he1, he2⟩ := hit
      have hlines : ChainItem.lines (.block b body e) = b :: (body ++ [e]) := rfl
      rw [hlines]
      simp only [List.foldl_cons]
      have hstepb : parseStep ⟨cs, cur, false⟩ b = ⟨cs, [b], true⟩ := by
        simp [parseStep, hb]
      rw [hstepb, List.foldl_append, foldl_parseStep_body body cs [b] hbody]
      have hstepe : parseStep ⟨cs, [b] ++ body, true⟩ e =
          ⟨cs ++ [pyJoinLines (b :: (body ++ [e]))], ([b] ++ body) ++ [e], false⟩ := by
        simp only [parseStep, he1, he2, Bool.false_eq_true, if_false, if_true]
        simp
      simp only [List.foldl_cons, List.foldl_nil, hstepe]
      obtain ⟨cur', hc⟩ := ih (cs ++ [pyJoinLines (b :: (body ++ [e]))]) (([b] ++ body) ++ [e]) hrest
      refine ⟨cur', ?_⟩
      rw [hc, chainBlocks_cons_block]
      simp

/-- Lines without the end marker never emit a certificate. -/
theorem foldl_parseStep_noEnd (S : List String) :
    ∀ st : ParseState, (∀ l ∈ S, pyContains l END_MARKER = false) →
      (S.foldl parseStep st).certs = st.certs := by
  induction S with
  | nil => intro st _; rfl
  | cons l rest ih =>
    intro st h
    have hl := h l (List.mem_cons_self l rest)
    have hcerts : (parseStep st l).certs = st.certs := by
      simp only [parseStep, hl, Bool.false_eq_true, if_false]
      split
      · rfl
      · split <;> rfl
    simp only [List.foldl_cons]
    rw [ih (parseStep st l) (fun x hx => h x (List.mem_cons_of_mem l hx)), hcerts]

/-! ## Claims C4, C5, C6: the PEM chain parser -/

/-- Claim C4: for every input text that is the concatenation of N well-formed
PEM certificate blocks, possibly with interleaved non-block lines,
`parse_cert_chain` returns exactly N entries, in input order, each entry's
content identical to the input slice between and including its BEGIN and END
marker lines. -/
theorem parse_cert_chain_concat (items : List ChainItem)
    (hwf : ∀ it ∈ items, it.wf)
    (hnl : ∀ l ∈ chainLines items, '\n' ∉ l.toList) :
    parse_cert_chain (pyJoinLines (chainLines items)) = chainBlocks items := by
  by_cases hnil : chainLines items = []
  · obtain rfl := chainLines_eq_nil items hnil
    decide
  · unfold parse_cert_chain
    rw [pySplitLines_pyJoinLines (chainLines items) hnil hnl]
    obtain ⟨cur', hc⟩ := foldl_parseStep_items items [] [] hwf
    rw [hc]
    simp

/-- Claim C4 witness: a junk line, one three-line block, one junk line, one
two-line block. -/
theorem parse_cert_chain_concat_witness :
    parse_cert_chain (pyJoinLines (chainLines
      [ChainItem.junk "some junk",
       ChainItem.block "-----BEGIN CERTIFICATE-----" ["AAA"] "-----END CERTIFICATE-----",
       ChainItem.junk "",
       ChainItem.block "-----BEGIN CERTIFICATE-----" [] "-----END CERTIFICATE-----"])) =
      chainBlocks
      [ChainItem.junk "some junk",
       ChainItem.block "-----BEGIN CERTIFICATE-----" ["AAA"] "-----END CERTIFICATE-----",
       ChainItem.junk "",
       ChainItem.block "-----BEGIN CERTIFICATE-----" [] "-----END CERTIFICATE-----"] :=
  parse_cert_chain_concat _ (by decide) (by decide)

/-- Claim C5 counterexample: a line containing the END marker that lies
outside every block is not ignored: on an input with zero valid blocks it
emits a spurious block, so the result is not the empty list. -/
theorem parse_cert_chain_stray_end :
    parse_cert_chain "-----END CERTIFICATE-----" = ["-----END CERTIFICATE-----"] ∧
    parse_cert_chain "-----END CERTIFICATE-----" ≠ [] := by
  constructor
  · decide
  · decide

/-- Claim C5 (amended): lines outside any block that contain neither marker
are ignored (the scanner state is unchanged), and an input none of whose
lines contains a marker yields the empty list; a stray END-marker line
outside any block instead emits a spurious block (see the counterexample). -/
theorem parse_cert_chain_ignores_nonmarker :
    (∀ (st : ParseState) (l : String), st.in_cert = false → noMarker l →
      parseStep st l = st) ∧
    (∀ content : String, (∀ l ∈ pySplitLines content, noMarker l) →
      parse_cert_chain content = []) := by
  constructor
  · intro st l h3 hm
    exact parseStep_outside st l hm.1 hm.2 h3
  · intro content h
    unfold parse_cert_chain
    have : ∀ (lines : List String), (∀ l ∈ lines, noMarker l) →
        lines.foldl parseStep ⟨[], [], false⟩ = ⟨[], [], false⟩ := by
      intro lines
      induction lines with
      | nil => intro _; rfl
      | cons l rest ih =>
        intro hall
        obtain ⟨h1, h2⟩ := hall l (List.mem_cons_self l rest)
        simp only [List.foldl_cons, parseStep_outside ⟨[], [], false⟩ l h1 h2 rfl]
        exact ih (fun x hx => hall x (List.mem_cons_of_mem l hx))
    rw [this (pySplitLines content) h]

/-- Claim C5 witness: an input of marker-free lines parses to the empty
list, and a marker-free line outside a block is ignored. -/
theorem parse_cert_chain_ignores_nonmarker_witness :
    parse_cert_chain "hello\nworld" = [] :=
  parse_cert_chain_ignores_nonmarker.2 "hello\nworld" (by decide)

/-- Claim C6: on an input whose final block is opened with a BEGIN marker but
never closed with an END marker, `parse_cert_chain` returns exactly the
completed blocks preceding it and silently omits the incomplete one. -/
theorem parse_cert_chain_unterminated (items : List ChainItem)
    (tail : List String)
    (hwf : ∀ it ∈ items, it.wf)
    (hnl : ∀ l ∈ chainLines items ++ tail, '\n' ∉ l.toList)
    (htne : tail ≠ [])
    (hbegin : pyContains (tail.headD "") BEGIN_MARKER = true)
    (hnoend : ∀ l ∈ tail, pyContains l END_MARKER = false) :
    parse_cert_chain (pyJoinLines (chainLines items ++ tail)) = chainBlocks items := by
  have hne : chainLines items ++ tail ≠ [] := by
    intro hx
    exact htne (List.append_eq_nil.mp hx).2
  unfold parse_cert_chain
  rw [pySplitLines_pyJoinLines _ hne hnl, List.foldl_append]
  obtain ⟨cur', hc⟩ := foldl_parseStep_items items [] [] hwf
  rw [hc, foldl_parseStep_noEnd tail _ hnoend]
  simp

/-- Claim C6 witness: one complete block followed by an opened, never-closed
block. -/
theorem parse_cert_chain_unterminated_witness :
    parse_cert_chain (pyJoinLines (chainLines
      [ChainItem.block "-----BEGIN CERTIFICATE-----" ["AAA"] "-----END CERTIFICATE-----"] ++
      ["-----BEGIN CERTIFICATE-----", "BBB"])) =
      chainBlocks
      [ChainItem.block "-----BEGIN CERTIFICATE-----" ["AAA"] "-----END CERTIFICATE-----"] :=
  parse_cert_chain_unterminated _ _ (by decide) (by decide) (by decide) (by decide) (by decide)

/-! ## Certificate metadata extractor (main.py `get_cert_info`, `analyze_certificate`) -/

/-- The fields the source reads off a decoded certificate: the rfc4514
renderings of subject and issuer and the UTC validity bounds. -/
structure CertData where
  subject : String
  issuer : String
  not_before : String
  not_after : String
deriving DecidableEq

/-- main.py's `CertificateInfo` response model (lines 32-38). -/
structure CertificateInfo where
  index : Nat
  subject : String
  issuer : String
  not_before : String
  not_after : String
  is_root : Bool
deriving DecidableEq

/-- main.py `get_cert_info` (lines 75-88).  `decode` abstracts
`x509.load_pem_x509_certificate` plus the `rfc4514_string` renderings of the
`cryptography` library; a decode failure is the exception the source lets
propagate to the caller. -/
def get_cert_info (decode : String → Except String CertData)
    (cert_pem : String) (index : Nat) : Except String CertificateInfo :=
  match decode cert_pem with
  | .error e => .error e
  | .ok c =>
    .ok ⟨index, c.subject, c.issuer, c.not_before, c.not_after, c.subject == c.issuer⟩

/-- main.py `analyze_certificate` (lines 117-134): parse the chain, get the
info of each certificate in order, silently skipping those whose decoding
raises. -/
def analyze_certificate (decode : String → Except String CertData)
    (content : String) : List CertificateInfo :=
  (parse_cert_chain content).enum.filterMap fun p =>
    (get_cert_info decode p.2 p.1).toOption

/-- Any info returned by `get_cert_info` is flagged root exactly when its
subject and issuer strings coincide. -/
theorem get_cert_info_ok_root (decode : String → Except String CertData)
    (pem : String) (i : Nat) (info : CertificateInfo)
    (h : get_cert_info decode pem i = .ok info) :
    info.is_root = true ↔ info.subject = info.issuer := by
  unfold get_cert_info at h
  cases hd : decode pem with
  | error e => rw [hd] at h; exact absurd h (by simp)
  | ok c =>
    rw [hd] at h
    have : info = ⟨i, c.subject, c.issuer, c.not_before, c.not_after,
        c.subject == c.issuer⟩ := by
      cases h; rfl
    subst this
    simpa using beq_iff_eq

/-- Every element of an analysis result is flagged root exactly when its
subject and issuer strings coincide. -/
theorem analyze_certificate_mem_root (decode : String → Except String CertData)
    (content : String) (info : CertificateInfo)
    (hmem : info ∈ analyze_certificate decode content) :
    info.is_root = true ↔ info.subject = info.issuer := by
  unfold analyze_certificate at hmem
  obtain ⟨p, _, hp⟩ := List.mem_filterMap.mp hmem
  cases hg : get_cert_info decode p.2 p.1 with
  | error e => rw [hg] at hp; exact absurd hp (by simp [Except.toOption])
  | ok v =>
    rw [hg] at hp
    simp only [Except.toOption, Option.some.injEq] at hp
    exact hp ▸ get_cert_info_ok_root decode p.2 p.1 v hg

/-- Claim C7: `get_cert_info` flags a certificate self-signed/root exactly
when its rendered subject string equals its rendered issuer string, and on an
analyzed chain of length at least two where the subject/issuer strings agree
exactly at position 0, only position 0 is flagged root. -/
theorem get_cert_info_is_root (decode : String → Except String CertData) :
    (∀ (pem : String) (i : Nat) (info : CertificateInfo),
      get_cert_info decode pem i = .ok info →
      (info.is_root = true ↔ info.subject = info.issuer)) ∧
    (∀ content : String,
      2 ≤ (analyze_certificate decode content).length →
      (∀ j (h : j < (analyze_certificate decode content).length),
        (((analyze_certificate decode content).get ⟨j, h⟩).subject =
          ((analyze_certificate decode content).get ⟨j, h⟩).issuer) ↔ j = 0) →
      ∀ j (h : j < (analyze_certificate decode content).length),
        ((analyze_certificate decode content).get ⟨j, h⟩).is_root = true ↔ j = 0) := by
  refine ⟨get_cert_info_ok_root decode, ?_⟩
  intro content _ hs j h
  rw [analyze_certificate_mem_root decode content _ (List.get_mem _ _ _)]
  exact hs j h

/-- A two-certificate chain text for concrete runs: a self-signed root block
followed by a leaf block. -/
def sampleChain : String :=
  "-----BEGIN CERTIFICATE-----\nAAA\n-----END CERTIFICATE-----\n-----BEGIN CERTIFICATE-----\nBBB\n-----END CERTIFICATE-----"

/-- A concrete decoding oracle: the first sample block decodes to a
self-signed certificate, the second to a leaf issued by the first. -/
def sampleDecode (pem : String) : Except String CertData :=
  if pem = "-----BEGIN CERTIFICATE-----\nAAA\n-----END CERTIFICATE-----" then
    .ok ⟨"CN=Root", "CN=Root", "2020-01-01", "2030-01-01"⟩
  else if pem = "-----BEGIN CERTIFICATE-----\nBBB\n-----END CERTIFICATE-----" then
    .ok ⟨"CN=Leaf", "CN=Root", "2020-01-01", "2030-01-01"⟩
  else
    .error "Unable to load certificate"

/-- Claim C7 witness: on the sample two-certificate chain whose first
certificate alone is self-signed, only index 0 is flagged root. -/
theorem get_cert_info_is_root_witness :
    2 ≤ (analyze_certificate sampleDecode sampleChain).length ∧
    (∀ j (h : j < (analyze_certificate sampleDecode sampleChain).length),
      ((analyze_certificate sampleDecode sampleChain).get ⟨j, h⟩).is_root = true ↔ j = 0) :=
  ⟨by decide, (get_cert_info_is_root sampleDecode).2 sampleChain (by decide) (by decide)⟩

/-! ## Store assembly pipeline (app.py `generate_stores`, lines 62-182) -/

/-- Outcome of a completed external process (`subprocess.run`). -/
structure ToolResult where
  returncode : Int
  stdout : String
  stderr : String
deriving DecidableEq

/-- Environment of one `generate_stores` run: the behaviour of external tool
invocations and of reading back a produced file (`.error` is the message of
the raised exception).  File writes into the fresh working directory are not
modelled; the commands carry the written files' paths. -/
structure GenEnv where
  run : List String → ToolResult
  readFile : String → Except String String

/-- The keytool trust-store import command for certificate `i`
(app.py 110-116). -/
def trustCmd (work_dir aliasName truststore_password : String) (i : Nat) : List String :=
  ["keytool", "-import", "-file", work_dir ++ "/ca_" ++ toString i ++ ".pem",
   "-alias", aliasName ++ "-ca-" ++ toString i,
   "-keystore", work_dir ++ "/truststore.jks",
   "-storepass", truststore_password, "-noprompt"]

/-- The openssl PKCS#12 export command (app.py 125-132). -/
def p12Cmd (work_dir aliasName keystore_password : String) : List String :=
  ["openssl", "pkcs12", "-export", "-in", work_dir ++ "/bundle",
   "-inkey", work_dir ++ "/key", "-name", aliasName,
   "-out", work_dir ++ "/keystore.p12", "-passout", "pass:" ++ keystore_password]

/-- The keytool PKCS#12-to-JKS conversion command (app.py 140-149). -/
def jksCmd (work_dir aliasName keystore_password : String) : List String :=
  ["keytool", "-importkeystore", "-srckeystore", work_dir ++ "/keystore.p12",
   "-srcstoretype", "pkcs12", "-srcstorepass", keystore_password,
   "-destkeystore", work_dir ++ "/keystore.jks", "-deststoretype", "jks",
   "-deststorepass", keystore_password, "-alias", aliasName]

/-- The `results` dictionary of `generate_stores` (app.py 65); `files` is the
insertion-ordered artifact map. -/
structure GenResults where
  success : Bool
  files : List (String × String)
  errors : List String
  info : List String
  pem_files : Option (String × String × String) := none
  passwords : Option (String × String) := none
deriving DecidableEq

/-- The truststore population loop (app.py 105-121): one keytool import per
certificate, failing fast.  Returns the loop outcome and the commands
actually issued, in order. -/
def importCerts (env : GenEnv) (work_dir aliasName truststore_password : String) :
    Nat → List String → Except String Unit × List (List String)
  | _, [] => (.ok (), [])
  | i, _cert :: rest =>
    let cmd := trustCmd work_dir aliasName truststore_password i
    let r := env.run cmd
    if r.returncode ≠ 0 then
      (.error ("Truststore creation failed for cert " ++ toString i ++ ": " ++ r.stderr),
       [cmd])
    else
      let next := importCerts env work_dir aliasName truststore_password (i + 1) rest
      (next.1, cmd :: next.2)

/-- The planned trust-store import commands for indices `k, k+1, ...`,
`n` of them. -/
def trustCmds (work_dir aliasName truststore_password : String) : Nat → Nat → List (List String)
  | _, 0 => []
  | k, n + 1 =>
    trustCmd work_dir aliasName truststore_password k ::
      trustCmds work_dir aliasName truststore_password (k + 1) n

/-- app.py `generate_stores` (lines 62-182), instrumented with the ordered
list of external commands invoked.  The `try`/`except` of the source is the
propagation of `.error` from `env.readFile`; `work_dir` stands for the fresh
`tempfile.mkdtemp()` directory. -/
def generate_stores_t (env : GenEnv)
    (ca_chain bundle key aliasName truststore_password keystore_password work_dir : String) :
    GenResults × List (List String) :=
  let certs := extract_certs ca_chain
  if certs = [] then
    ({ success := false, files := [],
       errors := ["Could not extract certificates from CA chain"], info := [] }, [])
  else
    match importCerts env work_dir aliasName truststore_password 0 certs with
    | (.error e, tr) =>
      ({ success := false, files := [], errors := [e], info := [] }, tr)
    | (.ok _, tr) =>
      let info1 := ["Truststore created successfully with " ++ toString certs.length ++
                    " CA certificates"]
      let rp := env.run (p12Cmd work_dir aliasName keystore_password)
      if rp.returncode ≠ 0 then
        ({ success := false, files := [],
           errors := ["P12 creation failed: " ++ rp.stderr], info := info1 },
         tr ++ [p12Cmd work_dir aliasName keystore_password])
      else
        let info2 := info1 ++ ["P12 keystore created successfully"]
        let rj := env.run (jksCmd work_dir aliasName keystore_password)
        let tr2 := tr ++ [p12Cmd work_dir aliasName keystore_password,
                          jksCmd work_dir aliasName keystore_password]
        if rj.returncode ≠ 0 then
          ({ success := false, files := [],
             errors := ["JKS conversion failed: " ++ rj.stderr], info := info2 }, tr2)
        else
          let info3 := info2 ++ ["JKS keystore created successfully"]
          match env.readFile (work_dir ++ "/truststore.jks") with
          | .error e =>
            ({ success := false, files := [], errors := [e], info := info3 }, tr2)
          | .ok t =>
            match env.readFile (work_dir ++ "/keystore.jks") with
            | .error e =>
              ({ success := false, files := [("truststore.jks", t)],
                 errors := [e], info := info3 }, tr2)
            | .ok kj =>
              match env.readFile (work_dir ++ "/keystore.p12") with
              | .error e =>
                ({ success := false,
                   files := [("truststore.jks", t), ("keystore.jks", kj)],
                   errors := [e], info := info3 }, tr2)
              | .ok kp =>
                ({ success := true,
                   files := [("truststore.jks", t), ("keystore.jks", kj),
                             ("keystore.p12", kp)],
                   errors := [], info := info3,
                   pem_files := some (ca_chain, bundle, key),
                   passwords := some (truststore_password, keystore_password) }, tr2)

/-- app.py `generate_stores`: the returned `results` dictionary. -/
def generate_stores (env : GenEnv)
    (ca_chain bundle key aliasName truststore_password keystore_password work_dir : String) :
    GenResults :=
  (generate_stores_t env ca_chain bundle key aliasName truststore_password keystore_password
    work_dir).1

/-- Every trust-store import for the extracted certificates exits zero. -/
def importsOK (env : GenEnv) (work_dir aliasName truststore_password : String) (n : Nat) : Prop :=
  ∀ i < n, (env.run (trustCmd work_dir aliasName truststore_password i)).returncode = 0

instance (env : GenEnv) (work_dir aliasName truststore_password : String) (n : Nat) :
    Decidable (importsOK env work_dir aliasName truststore_password n) :=
  inferInstanceAs (Decidable (∀ i < n, _ = (0 : Int)))

/-- All three declared output artifacts are read back without error. -/
def readsOK (env : GenEnv) (work_dir : String) : Prop :=
  (env.readFile (work_dir ++ "/truststore.jks")).isOk = true ∧
  (env.readFile (work_dir ++ "/keystore.jks")).isOk = true ∧
  (env.readFile (work_dir ++ "/keystore.p12")).isOk = true

instance (env : GenEnv) (work_dir : String) : Decidable (readsOK env work_dir) :=
  inferInstanceAs (Decidable (_ ∧ _ ∧ _))

/-- The artifacts read back before the first failing read, in the source's
insertion order. -/
def readBackFiles (env : GenEnv) (work_dir : String) : List (String × String) :=
  match env.readFile (work_dir ++ "/truststore.jks") with
  | .error _ => []
  | .ok t =>
    ("truststore.jks", t) ::
      match env.readFile (work_dir ++ "/keystore.jks") with
      | .error _ => []
      | .ok kj =>
        ("keystore.jks", kj) ::
          match env.readFile (work_dir ++ "/keystore.p12") with
          | .error _ => []
          | .ok kp => [("keystore.p12", kp)]

/-! ## Pipeline lemmas -/

theorem importCerts_ok (env : GenEnv) (wd an tp : String) :
    ∀ (certs : List String) (k : Nat),
      (∀ i < certs.length, (env.run (trustCmd wd an tp (k + i))).returncode = 0) →
      importCerts env wd an tp k certs = (.ok (), trustCmds wd an tp k certs.length) := by
  intro certs
  induction certs with
  | nil => intro k _; rfl
  | cons c rest ih =>
    intro k h
    have h0 : (env.run (trustCmd wd an tp k)).returncode = 0 := by
      have := h 0 (by simp)
      simpa using this
    have hrest : ∀ i < rest.length,
        (env.run (trustCmd wd an tp (k + 1 + i))).returncode = 0 := by
      intro i hi
      have := h (i + 1) (by simpa using Nat.succ_lt_succ hi)
      rwa [show k + (i + 1) = k + 1 + i by omega] at this
    simp only [importCerts]
    rw [if_neg (by simp [h0])]
    rw [ih (k + 1) hrest]
    rfl

theorem importCerts_err (env : GenEnv) (wd an tp : String) :
    ∀ (certs : List String) (k j : Nat), j < certs.length →
      (∀ i < j, (env.run (trustCmd wd an tp (k + i))).returncode = 0) →
      (env.run (trustCmd wd an tp (k + j))).returncode ≠ 0 →
      importCerts env wd an tp k certs =
        (.error ("Truststore creation failed for cert " ++ toString (k + j) ++ ": " ++
                 (env.run (trustCmd wd an tp (k + j))).stderr),
         trustCmds wd an tp k (j + 1)) := by
  intro certs
  induction certs with
  | nil =>
    intro k j hj _ _
    exact absurd hj (by simp)
  | cons c rest ih =>
    intro k j hj hzero hfail
    cases j with
    | zero =>
      simp only [Nat.add_zero] at hfail ⊢
      simp only [importCerts]
      rw [if_pos (by simpa using hfail)]
      rfl
    | succ j' =>
      have h0 : (env.run (trustCmd wd an tp k)).returncode = 0 := by
        have := hzero 0 (Nat.succ_pos j')
        simpa using this
      have hzero' : ∀ i < j',
          (env.run (trustCmd wd an tp (k + 1 + i))).returncode = 0 := by
        intro i hi
        have := hzero (i + 1) (Nat.succ_lt_succ hi)
        rwa [show k + (i + 1) = k + 1 + i by omega] at this
      have hj' : j' < rest.length := by
        simpa using Nat.lt_of_succ_lt_succ hj
      rw [show k + (j' + 1) = k + 1 + j' by omega]
      have hfail' : (env.run (trustCmd wd an tp (k + 1 + j'))).returncode ≠ 0 := by
        rwa [show k + (j' + 1) = k + 1 + j' by omega] at hfail
      simp only [importCerts]
      rw [if_neg (by simp [h0])]
      rw [ih (k + 1) j' hj' hzero' hfail']
      rfl

theorem importCerts_fst_ok (env : GenEnv) (wd an tp : String) (certs : List String)
    (h : (importCerts env wd an tp 0 certs).1 = .ok ()) :
    importsOK env wd an tp certs.length := by
  by_contra hno
  unfold importsOK at hno
  push_neg at hno
  obtain ⟨i, hi, hne⟩ := hno
  have hP : ∃ j, (env.run (trustCmd wd an tp j)).returncode ≠ 0 ∧ j < certs.length :=
    ⟨i, hne, hi⟩
  have hj0 := Nat.find_spec hP
  have hzero : ∀ i' < Nat.find hP,
      (env.run (trustCmd wd an tp (0 + i'))).returncode = 0 := by
    intro i' hi'
    simp only [Nat.zero_add]
    by_contra hne'
    exact Nat.find_min hP hi' ⟨hne', lt_trans hi' hj0.2⟩
  have herr := importCerts_err env wd an tp certs 0 (Nat.find hP) hj0.2 hzero
    (by simpa using hj0.1)
  rw [herr] at h
  simp at h

theorem importCerts_not_ok (env : GenEnv) (wd an tp : String) (certs : List String)
    (hno : ¬ importsOK env wd an tp certs.length) :
    ∃ e tr, importCerts env wd an tp 0 certs = (.error e, tr) := by
  unfold importsOK at hno
  push_neg at hno
  obtain ⟨i, hi, hne⟩ := hno
  have hP : ∃ j, (env.run (trustCmd wd an tp j)).returncode ≠ 0 ∧ j < certs.length :=
    ⟨i, hne, hi⟩
  have hj0 := Nat.find_spec hP
  have hzero : ∀ i' < Nat.find hP,
      (env.run (trustCmd wd an tp (0 + i'))).returncode = 0 := by
    intro i' hi'
    simp only [Nat.zero_add]
    by_contra hne'
    exact Nat.find_min hP hi' ⟨hne', lt_trans hi' hj0.2⟩
  exact ⟨_, _, importCerts_err env wd an tp certs 0 (Nat.find hP) hj0.2 hzero
    (by simpa using hj0.1)⟩

/-! ## Claims C1, C2, C3: the store-assembly pipeline -/

/-- Claim C1 (amended): `generate_stores` succeeds exactly when the chain is
non-empty, every trust-store import, the PKCS#12 export, and the JKS
conversion exit zero, and all three declared artifacts are read back; the
artifact map is empty whenever any step fails; on a read-back failure it
holds exactly the artifacts read before the failing read (so it need not be
empty when success is false). -/
theorem generate_stores_success_iff (env : GenEnv)
    (ca_chain bundle key aliasName tp kp wd : String) :
    ((generate_stores env ca_chain bundle key aliasName tp kp wd).success = true ↔
      (extract_certs ca_chain ≠ [] ∧
       importsOK env wd aliasName tp (extract_certs ca_chain).length ∧
       (env.run (p12Cmd wd aliasName kp)).returncode = 0 ∧
       (env.run (jksCmd wd aliasName kp)).returncode = 0 ∧
       readsOK env wd)) ∧
    ((generate_stores env ca_chain bundle key aliasName tp kp wd).files =
      if extract_certs ca_chain ≠ [] ∧
         importsOK env wd aliasName tp (extract_certs ca_chain).length ∧
         (env.run (p12Cmd wd aliasName kp)).returncode = 0 ∧
         (env.run (jksCmd wd aliasName kp)).returncode = 0
       then readBackFiles env wd else []) := by
  by_cases hc : extract_certs ca_chain = []
  · constructor <;> simp [generate_stores, generate_stores_t, hc]
  · by_cases him : importsOK env wd aliasName tp (extract_certs ca_chain).length
    · have himp := importCerts_ok env wd aliasName tp (extract_certs ca_chain) 0
        (fun i hi => by simpa using him i hi)
      by_cases hp : (env.run (p12Cmd wd aliasName kp)).returncode = 0
      · by_cases hjk : (env.run (jksCmd wd aliasName kp)).returncode = 0
        · cases hrt : env.readFile (wd ++ "/truststore.jks") with
          | error e =>
            constructor
            · simp [generate_stores, generate_stores_t, hc, himp, hp, hjk, hrt,
                readsOK, Except.isOk, Except.toBool]
            · simp [generate_stores, generate_stores_t, hc, him, himp, hp, hjk, hrt,
                readBackFiles]
          | ok t =>
            cases hrj : env.readFile (wd ++ "/keystore.jks") with
            | error e =>
              constructor
              · simp [generate_stores, generate_stores_t, hc, himp, hp, hjk, hrt, hrj,
                  readsOK, Except.isOk, Except.toBool]
              · simp [generate_stores, generate_stores_t, hc, him, himp, hp, hjk, hrt,
                  hrj, readBackFiles]
            | ok kj =>
              cases hrp : env.readFile (wd ++ "/keystore.p12") with
              | error e =>
                constructor
                · simp [generate_stores, generate_stores_t, hc, himp, hp, hjk, hrt, hrj,
                    hrp, readsOK, Except.isOk, Except.toBool]
                · simp [generate_stores, generate_stores_t, hc, him, himp, hp, hjk, hrt,
                    hrj, hrp, readBackFiles]
              | ok kp2 =>
                constructor
                · simp [generate_stores, generate_stores_t, hc, him, himp, hp, hjk, hrt,
                    hrj, hrp, readsOK, Except.isOk, Except.toBool]
                · simp [generate_stores, generate_stores_t, hc, him, himp, hp, hjk, hrt,
                    hrj, hrp, readBackFiles]
        · constructor
          · simp [generate_stores, generate_stores_t, hc, himp, hp, hjk]
          · simp [generate_stores, generate_stores_t, hc, him, himp, hp, hjk]
      · constructor
        · simp [generate_stores, generate_stores_t, hc, himp, hp]
        · simp [generate_stores, generate_stores_t, hc, him, himp, hp]
    · obtain ⟨e, tr, herr⟩ := importCerts_not_ok env wd aliasName tp
        (extract_certs ca_chain) him
      constructor
      · simp [generate_stores, generate_stores_t, hc, herr, him]
      · simp [generate_stores, generate_stores_t, hc, herr, him]

/-- A pipeline environment in which every tool exits zero and every read
succeeds. -/
def allOkEnv : GenEnv :=
  { run := fun _ => ⟨0, "", ""⟩, readFile := fun _ => .ok "DATA" }

/-- A chain text holding exactly one certificate block. -/
def oneCertChain : String :=
  "-----BEGIN CERTIFICATE-----\nAAA\n-----END CERTIFICATE-----"

/-- A pipeline environment in which every tool exits zero but reading back
keystore.jks raises. -/
def readFailEnv : GenEnv :=
  { run := fun _ => ⟨0, "", ""⟩,
    readFile := fun p => if p = "/w/keystore.jks" then .error "read failed" else .ok "DATA" }

/-- Claim C1 counterexample: with every required step exiting zero but the
keystore.jks read-back raising, the result has success = false while the
artifact map is non-empty (it retains the truststore read before the
failure), contradicting "whenever success is false, the artifact map in the
result is empty". -/
theorem generate_stores_partial_files :
    (generate_stores readFailEnv oneCertChain "B" "K" "a" "tp" "kp" "/w").success = false ∧
    (generate_stores readFailEnv oneCertChain "B" "K" "a" "tp" "kp" "/w").files =
      [("truststore.jks", "DATA")] ∧
    (generate_stores readFailEnv oneCertChain "B" "K" "a" "tp" "kp" "/w").files ≠ [] := by
  refine ⟨?_, ?_, ?_⟩ <;> decide

/-- Claim C1 witness: in the all-succeeding environment the amended
equivalence yields success = true. -/
theorem generate_stores_success_iff_witness :
    (generate_stores allOkEnv oneCertChain "B" "K" "a" "tp" "kp" "/w").success = true :=
  (generate_stores_success_iff allOkEnv oneCertChain "B" "K" "a" "tp" "kp" "/w").1.mpr
    (by decide)

/-- Claim C2: when the CA chain yields no certificate block,
`generate_stores` fails immediately: success = false, the
"Could not extract certificates from CA chain" error is reported, no
artifact is produced, and no external tool is invoked. -/
theorem generate_stores_no_certs (env : GenEnv)
    (ca_chain bundle key aliasName tp kp wd : String)
    (h : extract_certs ca_chain = []) :
    generate_stores_t env ca_chain bundle key aliasName tp kp wd =
      ({ success := false, files := [],
         errors := ["Could not extract certificates from CA chain"], info := [] }, []) := by
  simp [generate_stores_t, h]

/-- Claim C2 witness: a chain with no BEGIN marker yields no block and the
pipeline fails immediately with no tool invocation. -/
theorem generate_stores_no_certs_witness :
    extract_certs "no pem here" = [] ∧
    generate_stores_t allOkEnv "no pem here" "B" "K" "a" "tp" "kp" "/w" =
      ({ success := false, files := [],
         errors := ["Could not extract certificates from CA chain"], info := [] }, []) :=
  ⟨by decide, generate_stores_no_certs allOkEnv "no pem here" "B" "K" "a" "tp" "kp" "/w"
    (by decide)⟩

theorem take_append_of_length {α : Type} (l₁ l₂ : List α) (n : Nat)
    (h : l₁.length = n) : (l₁ ++ l₂).take n = l₁ := by
  subst h
  exact List.take_left l₁ l₂

/-- Claim C3: the trust-store step invokes keytool once per extracted
certificate, in source order, under aliases `<alias>-ca-0` … `<alias>-ca-(N-1)`
(the commands are `trustCmds _ _ _ 0 N`); when every import exits zero the
first informational message states the count N; a non-zero exit on
certificate j aborts the whole run after exactly the first j+1 imports, with
no export or conversion command issued, no artifact, and the step's error. -/
theorem generate_stores_truststore_loop (env : GenEnv)
    (ca_chain bundle key aliasName tp kp wd : String) :
    (importsOK env wd aliasName tp (extract_certs ca_chain).length →
      extract_certs ca_chain ≠ [] →
      ((generate_stores_t env ca_chain bundle key aliasName tp kp wd).2.take
          (extract_certs ca_chain).length =
        trustCmds wd aliasName tp 0 (extract_certs ca_chain).length ∧
       (generate_stores_t env ca_chain bundle key aliasName tp kp wd).1.info.head? =
        some ("Truststore created successfully with " ++
              toString (extract_certs ca_chain).length ++ " CA certificates"))) ∧
    (∀ j, j < (extract_certs ca_chain).length →
      (∀ i < j, (env.run (trustCmd wd aliasName tp i)).returncode = 0) →
      (env.run (trustCmd wd aliasName tp j)).returncode ≠ 0 →
      generate_stores_t env ca_chain bundle key aliasName tp kp wd =
        ({ success := false, files := [],
           errors := ["Truststore creation failed for cert " ++ toString j ++ ": " ++
                      (env.run (trustCmd wd aliasName tp j)).stderr],
           info := [] }, trustCmds wd aliasName tp 0 (j + 1))) := by
  constructor
  · intro him hne
    have himp := importCerts_ok env wd aliasName tp (extract_certs ca_chain) 0
      (fun i hi => by simpa using him i hi)
    have hlen : (trustCmds wd aliasName tp 0 (extract_certs ca_chain).length).length =
        (extract_certs ca_chain).length := by
      generalize 0 = k
      generalize (extract_certs ca_chain).length = n
      induction n generalizing k with
      | zero => rfl
      | succ m ih => simp [trustCmds, ih]
    by_cases hp : (env.run (p12Cmd wd aliasName kp)).returncode = 0
    · by_cases hjk : (env.run (jksCmd wd aliasName kp)).returncode = 0
      · cases hrt : env.readFile (wd ++ "/truststore.jks") with
        | error e =>
          constructor
          · simp [generate_stores_t, hne, himp, hp, hjk, hrt, take_append_of_length _ _ _ hlen]
          · simp [generate_stores_t, hne, himp, hp, hjk, hrt]
        | ok t =>
          cases hrj : env.readFile (wd ++ "/keystore.jks") with
          | error e =>
            constructor
            · simp [generate_stores_t, hne, himp, hp, hjk, hrt, hrj, take_append_of_length _ _ _ hlen]
            · simp [generate_stores_t, hne, himp, hp, hjk, hrt, hrj]
          | ok kj =>
            cases hrp : env.readFile (wd ++ "/keystore.p12") with
            | error e =>
              constructor
              · simp [generate_stores_t, hne, himp, hp, hjk, hrt, hrj, hrp, take_append_of_length _ _ _ hlen]
              · simp [generate_stores_t, hne, himp, hp, hjk, hrt, hrj, hrp]
            | ok kp2 =>
              constructor
              · simp [generate_stores_t, hne, himp, hp, hjk, hrt, hrj, hrp, take_append_of_length _ _ _ hlen]
              · simp [generate_stores_t, hne, himp, hp, hjk, hrt, hrj, hrp]
      · constructor
        · simp [generate_stores_t, hne, himp, hp, hjk, take_append_of_length _ _ _ hlen]
        · simp [generate_stores_t, hne, himp, hp, hjk]
    · constructor
      · simp [generate_stores_t, hne, himp, hp, take_append_of_length _ _ _ hlen]
      · simp [generate_stores_t, hne, himp, hp]
  · intro j hj hzero hfail
    have hne : extract_certs ca_chain ≠ [] := by
      intro hx
      rw [hx] at hj
      exact absurd hj (by simp)
    have herr := importCerts_err env wd aliasName tp (extract_certs ca_chain) 0 j hj
      (fun i hi => by simpa using hzero i hi) (by simpa using hfail)
    simp only [Nat.zero_add] at herr
    simp [generate_stores_t, hne, herr]

/-- Claim C3 witness: in the all-succeeding environment a one-certificate
chain issues exactly the single `<alias>-ca-0` import first and reports the
count. -/
theorem generate_stores_truststore_loop_witness :
    (generate_stores_t allOkEnv oneCertChain "B" "K" "a" "tp" "kp" "/w").2.take
        (extract_certs oneCertChain).length =
      trustCmds "/w" "a" "tp" 0 (extract_certs oneCertChain).length ∧
    (generate_stores_t allOkEnv oneCertChain "B" "K" "a" "tp" "kp" "/w").1.info.head? =
      some ("Truststore created successfully with " ++
            toString (extract_certs oneCertChain).length ++ " CA certificates") :=
  (generate_stores_truststore_loop allOkEnv oneCertChain "B" "K" "a" "tp" "kp" "/w").1
    (by decide) (by decide)

/-! ## Connection probes (main.py `test_kafka_connection`, app.py `test_kafka`) -/

/-- Outcome of one `subprocess.run` call as seen by the Python caller:
normal completion, a `TimeoutExpired` exception, or any other raised
exception; the string is the rendering `str(e)` of the exception. -/
inductive RunOutcome where
  | timeout (excMsg : String)
  | raised (excMsg : String)
  | finished (r : ToolResult)
deriving DecidableEq

/-- Environment of one probe run: whether a broker-admin CLI was found by
`shutil.which` and the behaviour of each external command. -/
structure ProbeEnv where
  kafka_bin : Option String
  run : List String → RunOutcome

/-- main.py's `TestResult` response model (lines 47-51). -/
structure TestResult where
  success : Bool
  message : String
  details : Option String := none
  topics : Option (List String) := none
deriving DecidableEq

/-- The ValueError text Python raises when unpacking a `split(':')` of more
than two parts into `host, port`. -/
def UNPACK_ERR : String := "too many values to unpack (expected 2)"

/-- The host/port split shared by app.py line 438 and main.py line 304:
`bootstrap.split(':') if ':' in bootstrap else (bootstrap, '443')`; the
two-variable unpacking raises ValueError when the split has three or more
parts (with `':' in bootstrap` it can never have fewer than two). -/
def hostPort (bootstrap : String) : Except String (String × String) :=
  if bootstrap.toList.contains ':' then
    match pySplitColon bootstrap with
    | [h, p] => .ok (h, p)
    | _ => .error UNPACK_ERR
  else
    .ok (bootstrap, "443")

/-- The topics list both probes build from the CLI's stdout:
`[t.strip() for t in stdout.strip().split('\n') if t.strip()]`. -/
def parseTopics (stdout : String) : List String :=
  (pySplitLines (pyStrip stdout)).filterMap fun t =>
    if pyStrip t ≠ "" then some (pyStrip t) else none

/-- main.py `test_kafka_connection` (lines 244-339) from the tool-selection
point on, instrumented with the external commands invoked.  The upload and
properties-file writes are not modelled (the properties path appears in the
CLI command); the outer `except` clause is the "Test failed" result. -/
def test_kafka_connection (env : ProbeEnv) (bootstrap work_dir : String) :
    TestResult × List (List String) :=
  let properties_path := work_dir ++ "/client-ssl.properties"
  match env.kafka_bin with
  | some kb =>
    let cmd := [kb, "--list", "--command-config", properties_path,
                "--bootstrap-server", bootstrap]
    match env.run cmd with
    | .timeout e => ({ success := false, message := "Test failed", details := some e }, [cmd])
    | .raised e => ({ success := false, message := "Test failed", details := some e }, [cmd])
    | .finished r =>
      if r.returncode = 0 then
        ({ success := true,
           message := "Connection successful! Found " ++
             toString (parseTopics r.stdout).length ++ " topics.",
           topics := some (parseTopics r.stdout) }, [cmd])
      else
        ({ success := false, message := "Kafka connection failed",
           details := some (if r.stderr ≠ "" then r.stderr else r.stdout) }, [cmd])
  | none =>
    match hostPort bootstrap with
    | .error e => ({ success := false, message := "Test failed", details := some e }, [])
    | .ok (host, port) =>
      let cmd_ssl := ["openssl", "s_client", "-connect", host ++ ":" ++ port, "-brief"]
      match env.run cmd_ssl with
      | .timeout _ =>
        ({ success := false, message := "Connection timeout to " ++ host ++ ":" ++ port,
           details := some "The server did not respond within 10 seconds" }, [cmd_ssl])
      | .raised e =>
        ({ success := false, message := "Test failed", details := some e }, [cmd_ssl])
      | .finished r =>
        if pyContains r.stdout "CONNECTED" || pyContains r.stderr "CONNECTED" then
          ({ success := true,
             message := "SSL handshake successful with " ++ host ++ ":" ++ port,
             details := some "Kafka CLI not available - performed basic SSL connectivity test only" },
           [cmd_ssl])
        else
          ({ success := false,
             message := "Cannot establish SSL connection to " ++ host ++ ":" ++ port,
             details := some (if r.stderr ≠ "" then pyTake 500 r.stderr else "Unknown error") },
           [cmd_ssl])

/-- The JSON body (plus HTTP status) of app.py's `test_kafka` responses. -/
structure ApiResponse where
  success : Bool
  error : Option String := none
  message : Option String := none
  details : Option String := none
  ssl_info : Option String := none
  topics : Option (List String) := none
  topics_count : Option Nat := none
  status : Nat := 200
deriving DecidableEq

/-- app.py `test_kafka` (lines 339-532) from the tool-selection point on,
instrumented with the external commands invoked.  Store preparation and file
writes are not modelled; the Java source write is represented only by the
javac/java commands that consume it; the outer `except` clause is the
status-500 response carrying `str(e)`. -/
def test_kafka (env : ProbeEnv) (bootstrap work_dir : String) :
    ApiResponse × List (List String) :=
  let properties_path := work_dir ++ "/client-ssl.properties"
  match env.kafka_bin with
  | some kb =>
    let cmd := [kb, "--list", "--command-config", properties_path,
                "--bootstrap-server", bootstrap]
    match env.run cmd with
    | .timeout e => ({ success := false, error := some e, status := 500 }, [cmd])
    | .raised e => ({ success := false, error := some e, status := 500 }, [cmd])
    | .finished r =>
      if r.returncode = 0 then
        ({ success := true, message := some "Connection successful!",
           topics := some (parseTopics r.stdout),
           topics_count := some (parseTopics r.stdout).length }, [cmd])
      else
        ({ success := false, error := some "Kafka connection failed",
           details := some (if r.stderr ≠ "" then r.stderr else r.stdout) }, [cmd])
  | none =>
    match hostPort bootstrap with
    | .error e => ({ success := false, error := some e, status := 500 }, [])
    | .ok (host, port) =>
      let compileCmd := ["javac", work_dir ++ "/SSLTest.java"]
      match env.run compileCmd with
      | .timeout _ =>
        ({ success := false,
           error := some ("Connection timeout to " ++ host ++ ":" ++ port),
           details := some "The server did not respond within 30 seconds" }, [compileCmd])
      | .raised e =>
        ({ success := false, error := some "Test execution failed",
           details := some e, status := 500 }, [compileCmd])
      | .finished c =>
        if c.returncode ≠ 0 then
          ({ success := false, error := some "Failed to compile SSL test",
             details := some c.stderr, status := 500 }, [compileCmd])
        else
          let runJavaCmd := ["java", "-cp", work_dir, "SSLTest"]
          match env.run runJavaCmd with
          | .timeout _ =>
            ({ success := false,
               error := some ("Connection timeout to " ++ host ++ ":" ++ port),
               details := some "The server did not respond within 30 seconds" },
             [compileCmd, runJavaCmd])
          | .raised e =>
            ({ success := false, error := some "Test execution failed",
               details := some e, status := 500 }, [compileCmd, runJavaCmd])
          | .finished r =>
            if r.returncode = 0 then
              ({ success := true,
                 message := some ("mTLS connection successful to " ++ host ++ ":" ++ port),
                 details := some "Certificate verification passed using generated JKS files",
                 ssl_info := some r.stdout }, [compileCmd, runJavaCmd])
            else
              ({ success := false,
                 error := some ("SSL connection failed to " ++ host ++ ":" ++ port),
                 details := some (pyTake 800 (if r.stderr ≠ "" then r.stderr else r.stdout)) },
               [compileCmd, runJavaCmd])

/-! ## Probe lemmas -/

theorem pySplitCharC_length (c : Char) (l : List Char) :
    (pySplitCharC c l).length = l.count c + 1 := by
  induction l with
  | nil => rfl
  | cons a rest ih =>
    by_cases hac : a = c
    · subst hac
      rw [pySplitCharC_cons_self]
      simp only [List.length_cons, List.count_cons_self, ih]
    · rw [pySplitCharC_cons_ne c a rest hac]
      have hne := pySplitCharC_ne_nil c rest
      rcases hr : pySplitCharC c rest with _ | ⟨x, xs⟩
      · exact absurd hr hne
      · have ih' := ih
        rw [hr] at ih'
        simp only [List.length_cons] at ih' ⊢
        rw [List.count_cons_of_ne (fun hh => hac hh.symm)]
        simp only [List.headD_cons, List.tail_cons, List.length_cons]
        omega

theorem contains_of_two_le_count (c : Char) (l : List Char) (h2 : 2 ≤ l.count c) :
    l.contains c = true := by
  have hmem : c ∈ l := List.count_pos_iff.mp (by omega)
  exact List.elem_eq_true_of_mem hmem

theorem hostPort_multicolon_err (bootstrap : String)
    (h2 : 2 ≤ bootstrap.toList.count ':') :
    hostPort bootstrap = .error UNPACK_ERR := by
  have hlen : 3 ≤ (pySplitColon bootstrap).length := by
    unfold pySplitColon
    rw [List.length_map, pySplitCharC_length]
    omega
  obtain ⟨x, y, z, t, hsp⟩ : ∃ x y z t, pySplitColon bootstrap = x :: y :: z :: t := by
    rcases hl : pySplitColon bootstrap with _ | ⟨x, _ | ⟨y, _ | ⟨z, t⟩⟩⟩
    · rw [hl] at hlen; simp at hlen
    · rw [hl] at hlen; simp at hlen
    · rw [hl] at hlen; simp at hlen
    · exact ⟨x, y, z, t, rfl⟩
  unfold hostPort
  rw [if_pos (contains_of_two_le_count ':' bootstrap.toList h2), hsp]

theorem hostPort_no_colon (bootstrap : String)
    (h : bootstrap.toList.contains ':' = false) :
    hostPort bootstrap = .ok (bootstrap, "443") := by
  have hnc : ¬ (bootstrap.toList.contains ':' = true) := by
    intro hc
    rw [h] at hc
    exact absurd hc (by decide)
  unfold hostPort
  rw [if_neg hnc]

theorem hostPort_one_colon (h p : String) (hh : ':' ∉ h.toList) (hp : ':' ∉ p.toList) :
    hostPort (h ++ ":" ++ p) = .ok (h, p) := by
  have htl : (h ++ ":" ++ p).toList = h.toList ++ ':' :: p.toList := by
    rw [string_toList_append, string_toList_append, List.append_assoc]
    rfl
  have hsplit : pySplitColon (h ++ ":" ++ p) = [h, p] := by
    unfold pySplitColon
    rw [htl, pySplitCharC_append ':' h.toList p.toList hh,
      pySplitCharC_no_sep ':' p.toList hp]
    simp [string_mk_toList]
  have hcont : (h ++ ":" ++ p).toList.contains ':' = true := by
    rw [htl]
    exact List.elem_eq_true_of_mem (by simp)
  unfold hostPort
  rw [if_pos hcont, hsplit]

/-! ## Claims C8, C9, C10: the connection probes -/

/-- A probe environment without the broker-admin CLI whose every command
reports a connected TLS session. -/
def envNoK : ProbeEnv :=
  { kafka_bin := none, run := fun _ => .finished ⟨0, "CONNECTED", ""⟩ }

/-- Claim C8 counterexample: for bootstrap "a:b:c" a ':' is present, yet the
fallback does not target the text after the separator as port: no handshake
command is issued at all; the split raises and the probe returns the
catch-all failure. -/
theorem test_kafka_connection_multicolon_cex :
    (test_kafka_connection envNoK "a:b:c" "/w").2 ≠
      [["openssl", "s_client", "-connect", "a:b:c", "-brief"]] ∧
    (test_kafka_connection envNoK "a:b:c" "/w").2 = [] ∧
    (test_kafka_connection envNoK "a:b:c" "/w").1 =
      { success := false, message := "Test failed", details := some UNPACK_ERR } := by
  refine ⟨?_, ?_, ?_⟩ <;> decide

/-- Claim C8 (amended): when the broker-admin CLI is absent, a bootstrap
endpoint without ':' makes the TLS handshake fallback target that string as
host with port 443, and with exactly one ':' the text after it is used as
the port; with two or more ':' the split raises instead (claim C10). -/
theorem test_kafka_connection_hostport (env : ProbeEnv) (bootstrap wd : String)
    (hk : env.kafka_bin = none) :
    (bootstrap.toList.contains ':' = false →
      (test_kafka_connection env bootstrap wd).2 =
        [["openssl", "s_client", "-connect", bootstrap ++ ":" ++ "443", "-brief"]]) ∧
    (∀ h p : String, ':' ∉ h.toList → ':' ∉ p.toList → bootstrap = h ++ ":" ++ p →
      (test_kafka_connection env bootstrap wd).2 =
        [["openssl", "s_client", "-connect", h ++ ":" ++ p, "-brief"]]) := by
  constructor
  · intro hnc
    have hhp := hostPort_no_colon bootstrap hnc
    unfold test_kafka_connection
    simp only [hk, hhp]
    cases hr : env.run ["openssl", "s_client", "-connect", bootstrap ++ ":" ++ "443",
        "-brief"] with
    | timeout e => simp [hr]
    | raised e => simp [hr]
    | finished r =>
      simp only [hr]
      split <;> rfl
  · intro h p hh hpp heq
    subst heq
    have hhp := hostPort_one_colon h p hh hpp
    unfold test_kafka_connection
    simp only [hk, hhp]
    cases hr : env.run ["openssl", "s_client", "-connect", h ++ ":" ++ p, "-brief"] with
    | timeout e => simp [hr]
    | raised e => simp [hr]
    | finished r =>
      simp only [hr]
      split <;> rfl

/-- Claim C8 witness: with the CLI absent, a colon-free bootstrap is probed
at port 443. -/
theorem test_kafka_connection_hostport_witness :
    (test_kafka_connection envNoK "broker" "/w").2 =
      [["openssl", "s_client", "-connect", "broker" ++ ":" ++ "443", "-brief"]] :=
  (test_kafka_connection_hostport envNoK "broker" "/w" rfl).1 (by decide)

/-- Claim C9: when the native TLS client fallback's run exits non-zero, the
diagnostic detail of the failure result is the stderr-or-stdout text
truncated to at most 800 characters. -/
theorem test_kafka_truncates_details (env : ProbeEnv) (bootstrap wd host port : String)
    (c r : ToolResult)
    (hk : env.kafka_bin = none)
    (hhp : hostPort bootstrap = .ok (host, port))
    (hcc : env.run ["javac", wd ++ "/SSLTest.java"] = .finished c)
    (hc0 : c.returncode = 0)
    (hr : env.run ["java", "-cp", wd, "SSLTest"] = .finished r)
    (hr0 : r.returncode ≠ 0) :
    (test_kafka env bootstrap wd).1.details =
      some (pyTake 800 (if r.stderr ≠ "" then r.stderr else r.stdout)) ∧
    (∀ d : String, (test_kafka env bootstrap wd).1.details = some d →
      d.length ≤ 800) := by
  have hlen : ∀ s : String, (pyTake 800 s).length ≤ 800 := by
    intro s
    show (s.toList.take 800).length ≤ 800
    rw [List.length_take]
    exact inf_le_left
  have hres : (test_kafka env bootstrap wd).1.details =
      some (pyTake 800 (if r.stderr ≠ "" then r.stderr else r.stdout)) := by
    unfold test_kafka
    simp only [hk, hhp, hcc, hr]
    simp [hc0, hr0]
  refine ⟨hres, ?_⟩
  intro d hd
  rw [hres] at hd
  rw [(Option.some.inj hd).symm]
  exact hlen _

/-- A probe environment without the CLI: compilation succeeds, the native
TLS client run fails with "boom" on stderr. -/
def env9 : ProbeEnv :=
  { kafka_bin := none,
    run := fun cmd =>
      if cmd = ["javac", "/w/SSLTest.java"] then .finished ⟨0, "", ""⟩
      else .finished ⟨1, "", "boom"⟩ }

/-- Claim C9 witness. -/
theorem test_kafka_truncates_details_witness :
    (test_kafka env9 "broker" "/w").1.details =
      some (pyTake 800 (if ("boom" : String) ≠ "" then "boom" else "")) ∧
    (∀ d : String, (test_kafka env9 "broker" "/w").1.details = some d →
      d.length ≤ 800) :=
  test_kafka_truncates_details env9 "broker" "/w" "broker" "443" ⟨0, "", ""⟩ ⟨1, "", "boom"⟩
    rfl rfl (by decide) (by decide) (by decide) (by decide)

/-- Claim C10: with the broker-admin CLI absent, a bootstrap endpoint with
two or more ':' makes the host/port split raise, so both probes return the
generic catch-all failure ("Test failed" in main.py; the status-500 internal
error carrying the exception text in app.py) without any handshake attempt
and without applying the default port. -/
theorem probe_multicolon_unpack (env : ProbeEnv) (bootstrap wd : String)
    (hk : env.kafka_bin = none)
    (h2 : 2 ≤ bootstrap.toList.count ':') :
    (test_kafka_connection env bootstrap wd =
      ({ success := false, message := "Test failed", details := some UNPACK_ERR }, [])) ∧
    (test_kafka env bootstrap wd =
      ({ success := false, error := some UNPACK_ERR, status := 500 }, [])) := by
  have herr := hostPort_multicolon_err bootstrap h2
  constructor
  · unfold test_kafka_connection
    simp [hk, herr]
  · unfold test_kafka
    simp [hk, herr]

/-- Claim C10 witness: "a:b:c" has two ':' and both probes return the
catch-all failure with no command issued. -/
theorem probe_multicolon_unpack_witness :
    test_kafka_connection envNoK "a:b:c" "/w" =
      ({ success := false, message := "Test failed", details := some UNPACK_ERR }, []) ∧
    test_kafka envNoK "a:b:c" "/w" =
      ({ success := false, error := some UNPACK_ERR, status := 500 }, []) :=
  probe_multicolon_unpack envNoK "a:b:c" "/w" rfl (by decide)
